import Mathlib

/-!
Shallow embedding of the IT-Navigator-Server storage layer
(`internal/storage/sqlite/sqlite.go`, personalization variant, and the
simpler variant in the second sqlite storage file) together with the
core HTTP handler layer (`internal/services/core/core.go`).

The relational store is modelled as lists of rows; SQLite statement
semantics (UNIQUE constraint on `users.email`, rowid assignment as one
more than the largest id in use, single-statement atomicity) follow the
schema in `migrations/1_init.up.sql` and the documented behavior of
`INTEGER PRIMARY KEY` tables.  Run-time statement failures (connection
loss etc.) are modelled by explicit fault schedules: the Go code's
control flow on a failing `Exec`/`Query` is reproduced exactly.
-/

namespace ITNav

/-- Error kinds of the storage package: `storage.ErrUserExists`,
`storage.ErrUserNotFound`, `storage.ErrAppNotFound`, and any other
(wrapped, generic) storage failure collapsed as `internal`. -/
inductive StorageErr where
  | userExists
  | userNotFound
  | appNotFound
  | internal
deriving DecidableEq, Repr

/-- A row of the `users` table: `users(id, email UNIQUE, pass_hash, name, image)`. -/
structure UserRow where
  id : Int
  email : String
  passHash : List Nat
  name : String
  image : String
deriving DecidableEq, Repr

/-- A row of the `author` catalog table (`models.Author`). -/
structure Author where
  id : Int
  name : String
  image : String
deriving DecidableEq, Repr

/-- A row of the `article` catalog table (`models.Article`). -/
structure Article where
  id : Int
  name : String
  image : String
  description : String
deriving DecidableEq, Repr

/-- A row of the `poet` catalog table (`models.Poet`). -/
structure Poet where
  id : Int
  name : String
  image : String
deriving DecidableEq, Repr

/-- A junction-table row `(userId, itemId)`.  The three junction tables
`authors(userId, authorId)`, `articles(userId, articleId)` and
`poets(userId, poetId)` all have this shape; `itemId` stands for the
`authorId` / `articleId` / `poetId` column respectively. -/
structure Assoc where
  userId : Int
  itemId : Int
deriving DecidableEq, Repr

/-- The projection `models.UserData` returned by `GetUser`: `{name, image}`. -/
structure UserData where
  name : String
  image : String
deriving DecidableEq, Repr

/-- The whole relational store: the `users` table, the three read-only
catalog tables and the three per-catalog junction tables. -/
structure DB where
  users : List UserRow
  author : List Author
  article : List Article
  poet : List Poet
  authors : List Assoc
  articles : List Assoc
  poets : List Assoc
deriving DecidableEq, Repr

/-- SQLite rowid assignment for `id INTEGER PRIMARY KEY`: the new rowid is
one more than the largest id currently in use (1 on an empty table).
This is the id `res.LastInsertId()` reports after the user insert. -/
def nextUserId (db : DB) : Int :=
  (db.users.map (fun u => u.id)).foldr max 0 + 1

/-- The UNIQUE constraint on `users.email`: true iff some row already
holds this email (the insert would then fail with
`sqlite3.ErrConstraintUnique`). -/
def emailExists (db : DB) (email : String) : Bool :=
  db.users.any (fun u => u.email = email)

/-- The fixed profile-preset names of `SaveUser` (personalization variant). -/
def authorsName : Fin 3 → String
  | 0 => "Фёдор Достоевский"
  | 1 => "Антон Чехов"
  | 2 => "Лев Толстой"

/-- The fixed profile-preset image URLs of `SaveUser` (personalization variant). -/
def authorsImage : Fin 3 → String
  | 0 => "https://iili.io/JwdlbqJ.png"
  | 1 => "https://iili.io/Jwdlg0x.png"
  | 2 => "https://iili.io/Jwdl6JV.png"

/-- Fault schedule for one `SaveUser` call: whether each of the three
catalog id reads fails, whether the user insert fails for a reason other
than the uniqueness constraint, and (counting the association `INSERT`
statements of this call globally in execution order: authors first, then
articles, then poets) the index of the association insert that fails, if
any. -/
structure SaveFaults where
  readAuthors : Bool
  readArticles : Bool
  readPoets : Bool
  insertUser : Bool
  assocFailAt : Option Nat
deriving DecidableEq, Repr

/-- The fault-free schedule: every statement of the call succeeds. -/
def noSaveFaults : SaveFaults :=
  ⟨false, false, false, false, none⟩

/-- One of the three association-seeding `for` loops of `SaveUser`: insert
one junction row per catalog id, as independent statements; the first
failing insert aborts the loop (the Go code returns immediately).
`k` is the global statement counter on entry; the result is the list of
rows actually inserted, the counter after the loop, and whether the loop
aborted with an error. -/
def seedLoop (uid : Int) (ids : List Int) (failAt : Option Nat) (k : Nat) :
    List Assoc × Nat × Bool :=
  match ids with
  | [] => ([], k, false)
  | i :: rest =>
    if failAt = some k then
      ([], k + 1, true)
    else
      let r := seedLoop uid rest failAt (k + 1)
      (⟨uid, i⟩ :: r.1, r.2.1, r.2.2)

/-- Model of `SaveUser`, personalization variant
(`internal/storage/sqlite/sqlite.go`, lines 34–107): read the complete id
sets of the `author`, `article` and `poet` catalogs (any failure returns
`(0, err)` before anything is written); insert the user row with a random
profile preset (`randomKey` models the `rand.Intn(3)` draw), mapping a
uniqueness violation to `ErrUserExists`; then seed one junction row per
catalog id, aborting at the first failing insert without rolling back and
still returning the already-committed user id alongside the error.
Returns the new store, the returned int64, and the returned error. -/
def saveUser (db : DB) (email : String) (passHash : List Nat) (randomKey : Fin 3)
    (f : SaveFaults) : DB × Int × Option StorageErr :=
  if f.readAuthors then (db, 0, some .internal)
  else if f.readArticles then (db, 0, some .internal)
  else if f.readPoets then (db, 0, some .internal)
  else if emailExists db email then (db, 0, some .userExists)
  else if f.insertUser then (db, 0, some .internal)
  else
    let id := nextUserId db
    let db1 : DB := { db with
      users := db.users ++ [⟨id, email, passHash, authorsName randomKey, authorsImage randomKey⟩] }
    let authorIDs := db.author.map (fun a => a.id)
    let articleIDs := db.article.map (fun a => a.id)
    let poetIDs := db.poet.map (fun p => p.id)
    let ra := seedLoop id authorIDs f.assocFailAt 0
    let db2 : DB := { db1 with authors := db1.authors ++ ra.1 }
    if ra.2.2 then (db2, id, some .internal)
    else
      let rb := seedLoop id articleIDs f.assocFailAt ra.2.1
      let db3 : DB := { db2 with articles := db2.articles ++ rb.1 }
      if rb.2.2 then (db3, id, some .internal)
      else
        let rc := seedLoop id poetIDs f.assocFailAt rb.2.1
        let db4 : DB := { db3 with poets := db3.poets ++ rc.1 }
        if rc.2.2 then (db4, id, some .internal)
        else (db4, id, none)

/-- Model of `SaveUser` of the simpler deployment variant (second sqlite storage
file, lines 31–54): insert the user row with the fixed name "Профиль" and
empty image, mapping a uniqueness violation to `ErrUserExists`; no
seeding.  `fInsert` injects a non-constraint insert failure. -/
def saveUserSimple (db : DB) (email : String) (passHash : List Nat)
    (fInsert : Bool) : DB × Int × Option StorageErr :=
  if emailExists db email then (db, 0, some .userExists)
  else if fInsert then (db, 0, some .internal)
  else
    let id := nextUserId db
    ({ db with users := db.users ++ [⟨id, email, passHash, "Профиль", ""⟩] }, id, none)

/-- Fault schedule for one `DeleteUser` call: whether each of the four
`DELETE` statements (users, authors, articles, poets, in execution order)
fails.  A failing statement changes nothing (single-statement atomicity). -/
structure DeleteFaults where
  failUsers : Bool
  failAuthors : Bool
  failArticles : Bool
  failPoets : Bool
deriving DecidableEq, Repr

/-- The fault-free schedule for `DeleteUser`. -/
def noDeleteFaults : DeleteFaults :=
  ⟨false, false, false, false⟩

/-- Model of `DeleteUser` (`internal/storage/sqlite/sqlite.go`, lines 339–371):
execute the four `DELETE` statements sequentially, without a transaction.
The Go code overwrites `err` after each `Exec` and only inspects it after
the last one, so the returned error reflects only the poets delete; a
failure of any earlier statement is silently dropped, and statements
already executed are not rolled back. -/
def deleteUser (db : DB) (userID : Int) (f : DeleteFaults) : DB × Option StorageErr :=
  let db1 : DB := if f.failUsers then db else
    { db with users := db.users.filter (fun u => u.id != userID) }
  let db2 : DB := if f.failAuthors then db1 else
    { db1 with authors := db1.authors.filter (fun a => a.userId != userID) }
  let db3 : DB := if f.failArticles then db2 else
    { db2 with articles := db2.articles.filter (fun a => a.userId != userID) }
  let db4 : DB := if f.failPoets then db3 else
    { db3 with poets := db3.poets.filter (fun a => a.userId != userID) }
  (db4, if f.failPoets then some .internal else none)

/-- Model of `User` (`internal/storage/sqlite/sqlite.go`, lines 180–201):
`SELECT id, email, pass_hash, name, image FROM users WHERE email = ?` via
`QueryRow`: the first matching row in store order, `sql.ErrNoRows` mapped
to `ErrUserNotFound`, i.e. the empty result set. -/
def userByEmail (db : DB) (email : String) : Except StorageErr UserRow :=
  match db.users.filter (fun u => u.email = email) with
  | [] => .error .userNotFound
  | u :: _ => .ok u

/-- Model of `GetUser` (`internal/storage/sqlite/sqlite.go`, lines 204–225):
`SELECT name, image FROM users WHERE id = ?` via `QueryRow`,
`sql.ErrNoRows` mapped to `ErrUserNotFound`. -/
def getUser (db : DB) (userId : Int) : Except StorageErr UserData :=
  match db.users.filter (fun u => u.id = userId) with
  | [] => .error .userNotFound
  | u :: _ => .ok ⟨u.name, u.image⟩

/-- Model of `Authors` (`internal/storage/sqlite/sqlite.go`, lines 228–262): the
inner join `author AS a INNER JOIN authors AS ua ON a.id = ua.authorId
WHERE ua.userId = ?`, one output row per matching pair. -/
def Authors (db : DB) (userId : Int) : List Author :=
  db.author.flatMap (fun a =>
    (db.authors.filter (fun ua => ua.itemId == a.id && ua.userId == userId)).map
      (fun _ => a))

/-- Model of `Articles` (`internal/storage/sqlite/sqlite.go`, lines 265–299): the
inner join `article AS a INNER JOIN articles AS ua ON a.id = ua.articleId
WHERE ua.userId = ?`. -/
def Articles (db : DB) (userId : Int) : List Article :=
  db.article.flatMap (fun a =>
    (db.articles.filter (fun ua => ua.itemId == a.id && ua.userId == userId)).map
      (fun _ => a))

/-- Model of `Poets` (`internal/storage/sqlite/sqlite.go`, lines 302–336): the
inner join `poet AS p INNER JOIN poets AS ua ON p.id = ua.poetId
WHERE ua.userId = ?`. -/
def Poets (db : DB) (userId : Int) : List Poet :=
  db.poet.flatMap (fun p =>
    (db.poets.filter (fun ua => ua.itemId == p.id && ua.userId == userId)).map
      (fun _ => p))

/-- Modelled from the spec: the messages of the typed domain errors of the
`internal/storage` package (the package file itself is not among the
provided sources; the spec names the kinds `AlreadyExists`, `NotFound`,
`Internal`).  Only used to render the plain-text error bodies; no claim
inspects these strings. -/
def errName : StorageErr → String
  | .userExists => "user already exists"
  | .userNotFound => "user not found"
  | .appNotFound => "app not found"
  | .internal => "internal error"

/-- The body `http.Error` writes for a failed provider call:
`fmt.Sprintf("%s: %v", op, err)` plus the newline `http.Error` appends. -/
def errBody (op : String) (e : StorageErr) : String :=
  op ++ ": " ++ errName e ++ "\n"

/-- An HTTP response as a handler leaves it: the status code, whether the
`Content-Type: application/json` header was set, and the bytes written to
the body (empty when the handler wrote nothing, in which case `net/http`
sends status 200 with an empty body). -/
structure HttpResponse where
  status : Nat
  jsonContentType : Bool
  body : String
deriving DecidableEq, Repr

/-- A JSON string literal for the plain (escape-free) name and URL values
these catalogs hold. -/
def jsonStr (s : String) : String :=
  "\"" ++ s ++ "\""

/-- Modelled from the spec: `encoding/json` serialization of a
`models.Author` (the Author model file is not among the provided sources;
per the spec a catalog item is identity, name, image-url, with json tags
as in the provided `models.Article`). -/
def encodeAuthor (a : Author) : String :=
  "\x7b\"id\":" ++ toString a.id ++ ",\"name\":" ++ jsonStr a.name ++
    ",\"image\":" ++ jsonStr a.image ++ "\x7d"

/-- Model of `json.NewEncoder(w).Encode(authors)`: the JSON rendering of the slice
followed by a newline; a nil slice (no rows scanned) encodes as `null`. -/
def encodeAuthors (l : List Author) : String :=
  match l with
  | [] => "null\n"
  | _ => "[" ++ String.intercalate "," (l.map encodeAuthor) ++ "]\n"

/-- Modelled from the spec: `encoding/json` serialization of the
`models.UserData` profile record `{name, image}` (the UserData model file
is not among the provided sources). -/
def encodeUserData (u : UserData) : String :=
  "\x7b\"name\":" ++ jsonStr u.name ++ ",\"image\":" ++ jsonStr u.image ++ "\x7d\n"

/-- Model of `GetAuthorHandler` (`internal/services/core/core.go`, lines 57–77):
extract `uid` from the request context (`none` models a missing or
wrongly-typed value, answered by `http.Error` with status 500 and a
plain-text body), call the provider, and on success set
`Content-Type: application/json` and encode the slice into the body.
Provider-side statement faults are not injected here: the store read is
the total function `Authors`. -/
def getAuthorHandler (db : DB) (uidInCtx : Option Int) : HttpResponse :=
  match uidInCtx with
  | none => ⟨500, false, "UID not found in context\n"⟩
  | some uid => ⟨200, true, encodeAuthors (Authors db uid)⟩

/-- Model of `GetUserHandler` (`internal/services/core/core.go`, lines 141–157):
extract `uid`, call `GetUser` and discard its result (`_, err := ...`);
on provider error answer 500 with a plain-text body; on success set
`Content-Type: application/json` and return without writing anything to
the body. -/
def getUserHandler (db : DB) (uidInCtx : Option Int) : HttpResponse :=
  match uidInCtx with
  | none => ⟨500, false, "UID not found in context\n"⟩
  | some uid =>
    match getUser db uid with
    | .error e => ⟨500, false, errBody "core.GetUserHandler" e⟩
    | .ok _ => ⟨200, true, ""⟩

/-! ## Helper lemmas -/

/-- Every element of a list is bounded by the `foldr max 0` over it. -/
theorem le_foldr_max (l : List Int) (x : Int) (hx : x ∈ l) : x ≤ l.foldr max 0 := by
  induction l with
  | nil => cases hx
  | cons y ys ih =>
    rcases List.mem_cons.mp hx with rfl | h
    · exact le_max_left _ _
    · exact le_trans (ih h) (le_max_right _ _)

/-- The id assigned to a new user is strictly larger than every id in use. -/
theorem nextUserId_gt (db : DB) (u : UserRow) (hu : u ∈ db.users) :
    u.id < nextUserId db := by
  have h : u.id ≤ (db.users.map (fun v => v.id)).foldr max 0 :=
    le_foldr_max _ _ (List.mem_map.mpr ⟨u, hu, rfl⟩)
  unfold nextUserId
  omega

/-- The id assigned to a new user is positive. -/
theorem nextUserId_pos (db : DB) : 0 < nextUserId db := by
  have h : (0 : Int) ≤ (db.users.map (fun v => v.id)).foldr max 0 := by
    induction db.users.map (fun v => v.id) with
    | nil => simp
    | cons y ys ih => exact le_trans ih (le_max_right _ _)
  unfold nextUserId
  omega

/-- A fault-free seeding loop inserts one row per catalog id and advances
the statement counter by the number of ids. -/
theorem seedLoop_none (uid : Int) (ids : List Int) (k : Nat) :
    seedLoop uid ids none k =
      (ids.map (fun i => ⟨uid, i⟩), k + ids.length, false) := by
  induction ids generalizing k with
  | nil => simp [seedLoop]
  | cons i rest ih =>
    simp [seedLoop, ih (k + 1), Prod.ext_iff]
    omega

/-- A seeding loop whose designated failing statement lies before the
current counter runs to completion. -/
theorem seedLoop_skip (uid : Int) (ids : List Int) (j k : Nat) (hj : j < k) :
    seedLoop uid ids (some j) k =
      (ids.map (fun i => ⟨uid, i⟩), k + ids.length, false) := by
  induction ids generalizing k with
  | nil => simp [seedLoop]
  | cons i rest ih =>
    have hne : ¬ ((some j : Option Nat) = some k) := by
      intro h
      cases h
      omega
    rw [seedLoop, if_neg hne, ih (k + 1) (by omega)]
    simp [Prod.ext_iff]
    omega

/-- A seeding loop whose designated failing statement lies at or beyond
the end of this loop runs to completion. -/
theorem seedLoop_after (uid : Int) (ids : List Int) (j k : Nat)
    (hj : k + ids.length ≤ j) :
    seedLoop uid ids (some j) k =
      (ids.map (fun i => ⟨uid, i⟩), k + ids.length, false) := by
  induction ids generalizing k with
  | nil => simp [seedLoop]
  | cons i rest ih =>
    rw [List.length_cons] at hj
    have hne : ¬ ((some j : Option Nat) = some k) := by
      intro h
      cases h
      omega
    rw [seedLoop, if_neg hne, ih (k + 1) (by omega)]
    simp [Prod.ext_iff]
    omega

/-- A seeding loop whose designated failing statement is the `m`-th insert
of this loop inserts the first `m` rows and aborts. -/
theorem seedLoop_abort (uid : Int) (ids : List Int) (m k : Nat)
    (hm : m < ids.length) :
    seedLoop uid ids (some (k + m)) k =
      ((ids.take m).map (fun i => ⟨uid, i⟩), k + m + 1, true) := by
  induction ids generalizing k m with
  | nil => simp at hm
  | cons i rest ih =>
    cases m with
    | zero => simp [seedLoop]
    | succ m2 =>
      rw [List.length_cons] at hm
      have hne : ¬ ((some (k + (m2 + 1)) : Option Nat) = some k) := by
        intro h
        cases h
      have hrw : k + (m2 + 1) = (k + 1) + m2 := by omega
      rw [seedLoop, if_neg hne]
      rw [hrw, ih m2 (k + 1) (by omega)]
      simp [Prod.ext_iff]

/-! ## Claim theorems -/

/-- C2: for every store state, calling `SaveUser` (either variant, with
every statement of the call itself executing normally) with an email equal
to the email of an existing user row fails with `ErrUserExists`, and the
store is returned unchanged — no new user row is added. -/
theorem saveUser_existing_email_fails (db : DB) (email : String)
    (passHash : List Nat) (randomKey : Fin 3) (fInsert : Bool)
    (h : emailExists db email = true) :
    saveUser db email passHash randomKey noSaveFaults =
      (db, 0, some .userExists) ∧
    saveUserSimple db email passHash fInsert = (db, 0, some .userExists) := by
  constructor
  · simp [saveUser, noSaveFaults, h]
  · simp [saveUserSimple, h]

/-- Witness for C2 at a concrete store holding the email "a@x.com". -/
theorem saveUser_existing_email_fails_witness :
    emailExists ⟨[⟨1, "a@x.com", [], "n", "i"⟩], [], [], [], [], [], []⟩ "a@x.com" = true ∧
    (saveUser ⟨[⟨1, "a@x.com", [], "n", "i"⟩], [], [], [], [], [], []⟩ "a@x.com" [2] 0 noSaveFaults =
        (⟨[⟨1, "a@x.com", [], "n", "i"⟩], [], [], [], [], [], []⟩, 0, some .userExists) ∧
      saveUserSimple ⟨[⟨1, "a@x.com", [], "n", "i"⟩], [], [], [], [], [], []⟩ "a@x.com" [2] false =
        (⟨[⟨1, "a@x.com", [], "n", "i"⟩], [], [], [], [], [], []⟩, 0, some .userExists)) :=
  ⟨by decide,
    saveUser_existing_email_fails ⟨[⟨1, "a@x.com", [], "n", "i"⟩], [], [], [], [], [], []⟩
      "a@x.com" [2] 0 false (by decide)⟩

/-- C7: a `User` lookup by an email matching no row returns
`ErrUserNotFound` (the `sql.ErrNoRows` mapping), not the generic internal
error, and a `GetUser` lookup by an id matching no row likewise returns
`ErrUserNotFound`. -/
theorem user_lookup_not_found (db : DB) (email : String) (userId : Int)
    (hEmail : ∀ u ∈ db.users, u.email ≠ email)
    (hId : ∀ u ∈ db.users, u.id ≠ userId) :
    userByEmail db email = .error .userNotFound ∧
    getUser db userId = .error .userNotFound := by
  have h1 : db.users.filter (fun u => u.email = email) = [] := by
    rw [List.filter_eq_nil_iff]
    intro u hu
    simp [hEmail u hu]
  have h2 : db.users.filter (fun u => u.id = userId) = [] := by
    rw [List.filter_eq_nil_iff]
    intro u hu
    simp [hId u hu]
  constructor
  · rw [userByEmail, h1]
  · rw [getUser, h2]

/-- Witness for C7: a store holding one unrelated user. -/
theorem user_lookup_not_found_witness :
    (∀ u ∈ (⟨[⟨1, "b@x.com", [], "n", "i"⟩], [], [], [], [], [], []⟩ : DB).users,
        u.email ≠ "a@x.com") ∧
    (∀ u ∈ (⟨[⟨1, "b@x.com", [], "n", "i"⟩], [], [], [], [], [], []⟩ : DB).users,
        u.id ≠ 2) ∧
    (userByEmail ⟨[⟨1, "b@x.com", [], "n", "i"⟩], [], [], [], [], [], []⟩ "a@x.com" =
        .error .userNotFound ∧
      getUser ⟨[⟨1, "b@x.com", [], "n", "i"⟩], [], [], [], [], [], []⟩ 2 =
        .error .userNotFound) :=
  ⟨by decide, by decide,
    user_lookup_not_found ⟨[⟨1, "b@x.com", [], "n", "i"⟩], [], [], [], [], [], []⟩
      "a@x.com" 2 (by decide) (by decide)⟩

/-- C10: the three catalog id reads of the personalization-variant
`SaveUser` happen before the user insert, so if any one of them fails the
call returns user id 0 together with the error and the store is unchanged:
no user row and no association rows were created by the call. -/
theorem saveUser_read_failure_leaves_store (db : DB) (email : String)
    (passHash : List Nat) (randomKey : Fin 3) (f : SaveFaults)
    (h : f.readAuthors = true ∨ f.readArticles = true ∨ f.readPoets = true) :
    saveUser db email passHash randomKey f = (db, 0, some .internal) := by
  by_cases hA : f.readAuthors
  · simp [saveUser, hA]
  · by_cases hB : f.readArticles
    · simp [saveUser, hA, hB]
    · have hC : f.readPoets = true := by
        rcases h with h | h | h
        · exact absurd h hA
        · exact absurd h hB
        · exact h
      simp [saveUser, hA, hB, hC]

/-- Witness for C10: a failing articles-catalog read on a concrete store. -/
theorem saveUser_read_failure_leaves_store_witness :
    ((⟨false, true, false, false, none⟩ : SaveFaults).readAuthors = true ∨
      (⟨false, true, false, false, none⟩ : SaveFaults).readArticles = true ∨
      (⟨false, true, false, false, none⟩ : SaveFaults).readPoets = true) ∧
    saveUser ⟨[], [⟨10, "a", "i"⟩], [], [], [], [], []⟩ "a@x.com" [2] 1
        ⟨false, true, false, false, none⟩ =
      (⟨[], [⟨10, "a", "i"⟩], [], [], [], [], []⟩, 0, some .internal) :=
  ⟨Or.inr (Or.inl rfl),
    saveUser_read_failure_leaves_store ⟨[], [⟨10, "a", "i"⟩], [], [], [], [], []⟩
      "a@x.com" [2] 1 ⟨false, true, false, false, none⟩ (Or.inr (Or.inl rfl))⟩

/-- C5: the scoped readers only return catalog items the argument user is
associated with: every item returned by `Authors`, `Articles` or `Poets`
for user id `userId` has a junction row `(userId, item.id)` in the
corresponding junction table.  In particular no item associated only with
a different user is ever returned. -/
theorem scoped_readers_only_associated (db : DB) (userId : Int) :
    (∀ a ∈ Authors db userId,
      ∃ ua ∈ db.authors, ua.userId = userId ∧ ua.itemId = a.id) ∧
    (∀ a ∈ Articles db userId,
      ∃ ua ∈ db.articles, ua.userId = userId ∧ ua.itemId = a.id) ∧
    (∀ p ∈ Poets db userId,
      ∃ ua ∈ db.poets, ua.userId = userId ∧ ua.itemId = p.id) := by
  refine ⟨?_, ?_, ?_⟩ <;>
    · intro a ha
      simp only [Authors, Articles, Poets, List.mem_flatMap, List.mem_map,
        List.mem_filter, Bool.and_eq_true, beq_iff_eq] at ha
      obtain ⟨x, _, ua, ⟨hmem, hitem, huser⟩, rfl⟩ := ha
      exact ⟨ua, hmem, huser, hitem⟩

/-- Witness for C5: a concrete store where user 7 is associated with
author 10 and user 8 with author 11; the item returned for user 7 carries
an association row for user 7. -/
theorem scoped_readers_only_associated_witness :
    (⟨10, "a", "i"⟩ : Author) ∈
      Authors ⟨[], [⟨10, "a", "i"⟩, ⟨11, "b", "j"⟩], [], [],
        [⟨7, 10⟩, ⟨8, 11⟩], [], []⟩ 7 ∧
    ∃ ua ∈ (⟨[], [⟨10, "a", "i"⟩, ⟨11, "b", "j"⟩], [], [],
        [⟨7, 10⟩, ⟨8, 11⟩], [], []⟩ : DB).authors,
      ua.userId = 7 ∧ ua.itemId = (⟨10, "a", "i"⟩ : Author).id :=
  ⟨by decide,
    (scoped_readers_only_associated
      ⟨[], [⟨10, "a", "i"⟩, ⟨11, "b", "j"⟩], [], [], [⟨7, 10⟩, ⟨8, 11⟩], [], []⟩ 7).1
      ⟨10, "a", "i"⟩ (by decide)⟩

/-- C1 (code evaluated at the failing input): `DeleteUser` is not
all-or-nothing.  On a store holding user 1 and its association row
`(1, 10)`, a run in which only the `DELETE FROM authors` statement fails
deletes the user row, leaves the association row in place, and still
returns success, because the Go code overwrites `err` after each of the
four sequential statements and only checks the last one, with no
transaction around them. -/
theorem deleteUser_partial_failure_eval :
    deleteUser ⟨[⟨1, "a@x.com", [], "n", "i"⟩], [], [], [], [⟨1, 10⟩], [], []⟩ 1
        ⟨false, true, false, false⟩ =
      (⟨[], [], [], [], [⟨1, 10⟩], [], []⟩, none) := by
  decide

/-- C8 (code evaluated at the failing input): on a store holding user 1
with name "n" and image "i", `GetUser 1` succeeds with the record
`{name := "n", image := "i"}`, yet `GetUserHandler` discards that result:
it answers with the `application/json` content type and an empty body
rather than the JSON serialization of the record, while the sibling
`GetAuthorHandler` does serialize its provider's result. -/
theorem getUserHandler_empty_body_eval :
    getUser ⟨[⟨1, "a@x.com", [], "n", "i"⟩], [⟨10, "auth", "img"⟩], [], [],
        [⟨1, 10⟩], [], []⟩ 1 = .ok ⟨"n", "i"⟩ ∧
    getUserHandler ⟨[⟨1, "a@x.com", [], "n", "i"⟩], [⟨10, "auth", "img"⟩], [], [],
        [⟨1, 10⟩], [], []⟩ (some 1) = ⟨200, true, ""⟩ ∧
    (getUserHandler ⟨[⟨1, "a@x.com", [], "n", "i"⟩], [⟨10, "auth", "img"⟩], [], [],
        [⟨1, 10⟩], [], []⟩ (some 1)).body ≠ encodeUserData ⟨"n", "i"⟩ ∧
    getAuthorHandler ⟨[⟨1, "a@x.com", [], "n", "i"⟩], [⟨10, "auth", "img"⟩], [], [],
        [⟨1, 10⟩], [], []⟩ (some 1) =
      ⟨200, true, "[\x7b\"id\":10,\"name\":\"auth\",\"image\":\"img\"\x7d]\n"⟩ :=
  ⟨rfl, rfl, by decide, rfl⟩

/-- Rows selected by a key different from the deleted key are untouched by
a `DELETE ... WHERE key = uid` statement. -/
theorem filter_ne_comm_eq {α : Type} (g : α → Int) (uid v : Int) (hv : v ≠ uid)
    (l : List α) :
    (l.filter (fun a => g a != uid)).filter (fun a => g a == v) =
      l.filter (fun a => g a == v) := by
  induction l with
  | nil => rfl
  | cons x xs ih =>
    by_cases h : g x = uid
    · have hxv : ¬ (uid = v) := fun e => hv e.symm
      simp [List.filter_cons, h, hxv, ih]
    · simp [List.filter_cons, h, ih]

/-- C9: a repeated `DeleteUser` on the same id (statements executing
normally) is a no-op success, and `DeleteUser` — under every fault
schedule — never touches the user row or the association rows of any
other user id `v`: the rows selected by `v` are exactly the same before
and after the call. -/
theorem deleteUser_frame_idempotent (db : DB) (uid v : Int) (f : DeleteFaults)
    (hv : v ≠ uid) :
    (deleteUser (deleteUser db uid noDeleteFaults).1 uid noDeleteFaults =
      ((deleteUser db uid noDeleteFaults).1, none)) ∧
    ((deleteUser db uid f).1.users.filter (fun u => u.id == v) =
      db.users.filter (fun u => u.id == v)) ∧
    ((deleteUser db uid f).1.authors.filter (fun a => a.userId == v) =
      db.authors.filter (fun a => a.userId == v)) ∧
    ((deleteUser db uid f).1.articles.filter (fun a => a.userId == v) =
      db.articles.filter (fun a => a.userId == v)) ∧
    ((deleteUser db uid f).1.poets.filter (fun a => a.userId == v) =
      db.poets.filter (fun a => a.userId == v)) := by
  have hu := filter_ne_comm_eq (fun u : UserRow => u.id) uid v hv db.users
  have ha := filter_ne_comm_eq (fun a : Assoc => a.userId) uid v hv db.authors
  have hb := filter_ne_comm_eq (fun a : Assoc => a.userId) uid v hv db.articles
  have hp := filter_ne_comm_eq (fun a : Assoc => a.userId) uid v hv db.poets
  obtain ⟨fu, fa, fb, fp⟩ := f
  refine ⟨?_, ?_, ?_, ?_, ?_⟩ <;>
    cases fu <;> cases fa <;> cases fb <;> cases fp <;>
      simp [deleteUser, noDeleteFaults, List.filter_filter, hu, ha, hb, hp]

/-- Witness for C9: rows of user 2 survive a delete of user 1 in which the
authors delete statement fails. -/
theorem deleteUser_frame_idempotent_witness :
    (2 : Int) ≠ 1 ∧
    ((deleteUser ⟨[⟨1, "a", [], "n", "i"⟩, ⟨2, "b", [], "m", "j"⟩], [], [], [],
          [⟨1, 10⟩, ⟨2, 20⟩], [⟨2, 21⟩], [⟨1, 30⟩]⟩ 1
        ⟨false, true, false, false⟩).1.authors.filter (fun a => a.userId == 2) =
      (⟨[⟨1, "a", [], "n", "i"⟩, ⟨2, "b", [], "m", "j"⟩], [], [], [],
          [⟨1, 10⟩, ⟨2, 20⟩], [⟨2, 21⟩], [⟨1, 30⟩]⟩ : DB).authors.filter
        (fun a => a.userId == 2)) :=
  ⟨by decide,
    (deleteUser_frame_idempotent
      ⟨[⟨1, "a", [], "n", "i"⟩, ⟨2, "b", [], "m", "j"⟩], [], [], [],
        [⟨1, 10⟩, ⟨2, 20⟩], [⟨2, 21⟩], [⟨1, 30⟩]⟩ 1 2
      ⟨false, true, false, false⟩ (by decide)).2.2.1⟩

/-- Evaluation of a fault-free personalization-variant `SaveUser` on a
fresh email: the user row is appended with the next id and one junction
row per catalog id is seeded into each junction table. -/
theorem saveUser_noFaults_eq (db : DB) (email : String) (passHash : List Nat)
    (randomKey : Fin 3) (hfresh : emailExists db email = false) :
    saveUser db email passHash randomKey noSaveFaults =
      (⟨db.users ++ [⟨nextUserId db, email, passHash, authorsName randomKey,
          authorsImage randomKey⟩],
        db.author, db.article, db.poet,
        db.authors ++ (db.author.map (fun a => a.id)).map
          (fun i => ⟨nextUserId db, i⟩),
        db.articles ++ (db.article.map (fun a => a.id)).map
          (fun i => ⟨nextUserId db, i⟩),
        db.poets ++ (db.poet.map (fun p => p.id)).map
          (fun i => ⟨nextUserId db, i⟩)⟩,
       nextUserId db, none) := by
  simp [saveUser, noSaveFaults, hfresh, seedLoop_none]

/-- Rows of other users never carry the freshly assigned id, so the
seeded junction rows are exactly the rows filtered by the new id. -/
theorem seeded_filter_length (old : List Assoc) (ids : List Int) (id : Int)
    (hold : ∀ r ∈ old, r.userId ≠ id) :
    ((old ++ ids.map (fun i => (⟨id, i⟩ : Assoc))).filter
        (fun r => r.userId == id)).length = ids.length := by
  rw [List.filter_append]
  have h1 : old.filter (fun r => r.userId == id) = [] := by
    rw [List.filter_eq_nil_iff]
    intro r hr
    simp [hold r hr]
  have h2 : (ids.map (fun i => (⟨id, i⟩ : Assoc))).filter
      (fun r => r.userId == id) = ids.map (fun i => ⟨id, i⟩) := by
    rw [List.filter_eq_self]
    intro a ha
    obtain ⟨i, _, rfl⟩ := List.mem_map.mp ha
    simp
  rw [h1, h2]
  simp

/-- C3: after a successful fault-free `SaveUser` in the personalization
variant, on a store satisfying referential integrity of the junction
tables (every junction row references an existing user), the number of
junction rows carrying the new user id equals the number of rows in the
corresponding catalog table at creation time, for each of the three
catalogs. -/
theorem saveUser_seeds_all_catalogs (db : DB) (email : String)
    (passHash : List Nat) (randomKey : Fin 3)
    (hfresh : emailExists db email = false)
    (hra : ∀ r ∈ db.authors, ∃ u ∈ db.users, u.id = r.userId)
    (hrb : ∀ r ∈ db.articles, ∃ u ∈ db.users, u.id = r.userId)
    (hrc : ∀ r ∈ db.poets, ∃ u ∈ db.users, u.id = r.userId) :
    (saveUser db email passHash randomKey noSaveFaults).2.2 = none ∧
    ((saveUser db email passHash randomKey noSaveFaults).1.authors.filter
        (fun r => r.userId ==
          (saveUser db email passHash randomKey noSaveFaults).2.1)).length =
      db.author.length ∧
    ((saveUser db email passHash randomKey noSaveFaults).1.articles.filter
        (fun r => r.userId ==
          (saveUser db email passHash randomKey noSaveFaults).2.1)).length =
      db.article.length ∧
    ((saveUser db email passHash randomKey noSaveFaults).1.poets.filter
        (fun r => r.userId ==
          (saveUser db email passHash randomKey noSaveFaults).2.1)).length =
      db.poet.length := by
  have hid : ∀ (l : List Assoc), (∀ r ∈ l, ∃ u ∈ db.users, u.id = r.userId) →
      ∀ r ∈ l, r.userId ≠ nextUserId db := by
    intro l hl r hr
    obtain ⟨u, hu, he⟩ := hl r hr
    have := nextUserId_gt db u hu
    omega
  rw [saveUser_noFaults_eq db email passHash randomKey hfresh]
  refine ⟨rfl, ?_, ?_, ?_⟩
  · rw [seeded_filter_length db.authors _ _ (hid db.authors hra)]
    simp
  · rw [seeded_filter_length db.articles _ _ (hid db.articles hrb)]
    simp
  · rw [seeded_filter_length db.poets _ _ (hid db.poets hrc)]
    simp

/-- Witness for C3: a store with one user, two authors, one article and
one poet; the new user receives exactly 2, 1, 1 association rows. -/
theorem saveUser_seeds_all_catalogs_witness :
    emailExists ⟨[⟨1, "b@x.com", [], "n", "i"⟩], [⟨10, "a", "i"⟩, ⟨11, "b", "j"⟩],
        [⟨20, "c", "k", "d"⟩], [⟨30, "p", "l"⟩], [⟨1, 10⟩, ⟨1, 11⟩], [⟨1, 20⟩],
        [⟨1, 30⟩]⟩ "a@x.com" = false ∧
    ((saveUser ⟨[⟨1, "b@x.com", [], "n", "i"⟩], [⟨10, "a", "i"⟩, ⟨11, "b", "j"⟩],
          [⟨20, "c", "k", "d"⟩], [⟨30, "p", "l"⟩], [⟨1, 10⟩, ⟨1, 11⟩], [⟨1, 20⟩],
          [⟨1, 30⟩]⟩ "a@x.com" [2] 1 noSaveFaults).2.2 = none ∧
      ((saveUser ⟨[⟨1, "b@x.com", [], "n", "i"⟩], [⟨10, "a", "i"⟩, ⟨11, "b", "j"⟩],
            [⟨20, "c", "k", "d"⟩], [⟨30, "p", "l"⟩], [⟨1, 10⟩, ⟨1, 11⟩], [⟨1, 20⟩],
            [⟨1, 30⟩]⟩ "a@x.com" [2] 1 noSaveFaults).1.authors.filter
          (fun r => r.userId ==
            (saveUser ⟨[⟨1, "b@x.com", [], "n", "i"⟩], [⟨10, "a", "i"⟩, ⟨11, "b", "j"⟩],
              [⟨20, "c", "k", "d"⟩], [⟨30, "p", "l"⟩], [⟨1, 10⟩, ⟨1, 11⟩], [⟨1, 20⟩],
              [⟨1, 30⟩]⟩ "a@x.com" [2] 1 noSaveFaults).2.1)).length =
        (⟨[⟨1, "b@x.com", [], "n", "i"⟩], [⟨10, "a", "i"⟩, ⟨11, "b", "j"⟩],
          [⟨20, "c", "k", "d"⟩], [⟨30, "p", "l"⟩], [⟨1, 10⟩, ⟨1, 11⟩], [⟨1, 20⟩],
          [⟨1, 30⟩]⟩ : DB).author.length ∧
      ((saveUser ⟨[⟨1, "b@x.com", [], "n", "i"⟩], [⟨10, "a", "i"⟩, ⟨11, "b", "j"⟩],
            [⟨20, "c", "k", "d"⟩], [⟨30, "p", "l"⟩], [⟨1, 10⟩, ⟨1, 11⟩], [⟨1, 20⟩],
            [⟨1, 30⟩]⟩ "a@x.com" [2] 1 noSaveFaults).1.articles.filter
          (fun r => r.userId ==
            (saveUser ⟨[⟨1, "b@x.com", [], "n", "i"⟩], [⟨10, "a", "i"⟩, ⟨11, "b", "j"⟩],
              [⟨20, "c", "k", "d"⟩], [⟨30, "p", "l"⟩], [⟨1, 10⟩, ⟨1, 11⟩], [⟨1, 20⟩],
              [⟨1, 30⟩]⟩ "a@x.com" [2] 1 noSaveFaults).2.1)).length =
        (⟨[⟨1, "b@x.com", [], "n", "i"⟩], [⟨10, "a", "i"⟩, ⟨11, "b", "j"⟩],
          [⟨20, "c", "k", "d"⟩], [⟨30, "p", "l"⟩], [⟨1, 10⟩, ⟨1, 11⟩], [⟨1, 20⟩],
          [⟨1, 30⟩]⟩ : DB).article.length ∧
      ((saveUser ⟨[⟨1, "b@x.com", [], "n", "i"⟩], [⟨10, "a", "i"⟩, ⟨11, "b", "j"⟩],
            [⟨20, "c", "k", "d"⟩], [⟨30, "p", "l"⟩], [⟨1, 10⟩, ⟨1, 11⟩], [⟨1, 20⟩],
            [⟨1, 30⟩]⟩ "a@x.com" [2] 1 noSaveFaults).1.poets.filter
          (fun r => r.userId ==
            (saveUser ⟨[⟨1, "b@x.com", [], "n", "i"⟩], [⟨10, "a", "i"⟩, ⟨11, "b", "j"⟩],
              [⟨20, "c", "k", "d"⟩], [⟨30, "p", "l"⟩], [⟨1, 10⟩, ⟨1, 11⟩], [⟨1, 20⟩],
              [⟨1, 30⟩]⟩ "a@x.com" [2] 1 noSaveFaults).2.1)).length =
        (⟨[⟨1, "b@x.com", [], "n", "i"⟩], [⟨10, "a", "i"⟩, ⟨11, "b", "j"⟩],
          [⟨20, "c", "k", "d"⟩], [⟨30, "p", "l"⟩], [⟨1, 10⟩, ⟨1, 11⟩], [⟨1, 20⟩],
          [⟨1, 30⟩]⟩ : DB).poet.length) :=
  ⟨by decide,
    saveUser_seeds_all_catalogs
      ⟨[⟨1, "b@x.com", [], "n", "i"⟩], [⟨10, "a", "i"⟩, ⟨11, "b", "j"⟩],
        [⟨20, "c", "k", "d"⟩], [⟨30, "p", "l"⟩], [⟨1, 10⟩, ⟨1, 11⟩], [⟨1, 20⟩],
        [⟨1, 30⟩]⟩ "a@x.com" [2] 1 (by decide) (by decide) (by decide) (by decide)⟩

/-- C6 (counterexample): identities are not distinct across `SaveUser`
calls.  `id INTEGER PRIMARY KEY` assigns one more than the largest id in
use, so after creating a user on an empty store (id 1), deleting it, and
creating another user with a different email, the second call returns
id 1 again: two successful `SaveUser` calls return the same identity. -/
theorem saveUser_id_reuse_counterexample :
    (saveUser ⟨[], [], [], [], [], [], []⟩ "a@x.com" [] 0 noSaveFaults).2.2 = none ∧
    (saveUser ⟨[], [], [], [], [], [], []⟩ "a@x.com" [] 0 noSaveFaults).2.1 = 1 ∧
    (deleteUser (saveUser ⟨[], [], [], [], [], [], []⟩ "a@x.com" [] 0
        noSaveFaults).1 1 noDeleteFaults).2 = none ∧
    (saveUser (deleteUser (saveUser ⟨[], [], [], [], [], [], []⟩ "a@x.com" [] 0
        noSaveFaults).1 1 noDeleteFaults).1 "b@x.com" [] 0 noSaveFaults).2.2 =
      none ∧
    (saveUser (deleteUser (saveUser ⟨[], [], [], [], [], [], []⟩ "a@x.com" [] 0
        noSaveFaults).1 1 noDeleteFaults).1 "b@x.com" [] 0 noSaveFaults).2.1 =
      1 := by
  decide

/-- C6 (amended): a fault-free `SaveUser` with a fresh email succeeds; the
returned identity is positive and distinct from the identity of every user
row present in the store at the time of the call (identities of previously
deleted users may be reused); and a subsequent `User` fetch by that email
returns the stored record, whose email field equals the given email
exactly and whose id is the returned identity. -/
theorem saveUser_roundtrip_fresh_email (db : DB) (email : String)
    (passHash : List Nat) (randomKey : Fin 3)
    (hfresh : emailExists db email = false) :
    (saveUser db email passHash randomKey noSaveFaults).2.2 = none ∧
    0 < (saveUser db email passHash randomKey noSaveFaults).2.1 ∧
    (∀ u ∈ db.users, u.id ≠ (saveUser db email passHash randomKey noSaveFaults).2.1) ∧
    userByEmail (saveUser db email passHash randomKey noSaveFaults).1 email =
      .ok ⟨(saveUser db email passHash randomKey noSaveFaults).2.1, email,
        passHash, authorsName randomKey, authorsImage randomKey⟩ := by
  have hnone : ∀ u ∈ db.users, ¬ (u.email = email) := by
    intro u hu he
    have hex : emailExists db email = true := by
      simp only [emailExists, List.any_eq_true, decide_eq_true_eq]
      exact ⟨u, hu, he⟩
    rw [hex] at hfresh
    cases hfresh
  rw [saveUser_noFaults_eq db email passHash randomKey hfresh]
  refine ⟨rfl, nextUserId_pos db, ?_, ?_⟩
  · intro u hu
    show u.id ≠ nextUserId db
    have := nextUserId_gt db u hu
    omega
  · have h2 : db.users.filter (fun u => u.email = email) = [] := by
      rw [List.filter_eq_nil_iff]
      intro u hu
      simp only [decide_eq_true_eq]
      exact hnone u hu
    have h1 : (db.users ++ [(⟨nextUserId db, email, passHash,
        authorsName randomKey, authorsImage randomKey⟩ : UserRow)]).filter
          (fun u => u.email = email) =
        [⟨nextUserId db, email, passHash, authorsName randomKey,
          authorsImage randomKey⟩] := by
      rw [List.filter_append, h2]
      simp
    simp [userByEmail, h1]

/-- Witness for C6 (amended) on an empty store. -/
theorem saveUser_roundtrip_fresh_email_witness :
    emailExists ⟨[], [], [], [], [], [], []⟩ "a@x.com" = false ∧
    ((saveUser ⟨[], [], [], [], [], [], []⟩ "a@x.com" [2] 0 noSaveFaults).2.2 = none ∧
      0 < (saveUser ⟨[], [], [], [], [], [], []⟩ "a@x.com" [2] 0 noSaveFaults).2.1 ∧
      (∀ u ∈ (⟨[], [], [], [], [], [], []⟩ : DB).users,
        u.id ≠ (saveUser ⟨[], [], [], [], [], [], []⟩ "a@x.com" [2] 0 noSaveFaults).2.1) ∧
      userByEmail (saveUser ⟨[], [], [], [], [], [], []⟩ "a@x.com" [2] 0 noSaveFaults).1
          "a@x.com" =
        .ok ⟨(saveUser ⟨[], [], [], [], [], [], []⟩ "a@x.com" [2] 0 noSaveFaults).2.1,
          "a@x.com", [2], authorsName 0, authorsImage 0⟩) :=
  ⟨by decide,
    saveUser_roundtrip_fresh_email ⟨[], [], [], [], [], [], []⟩ "a@x.com" [2] 0
      (by decide)⟩

/-- C4: if the `n`-th association insert of the seeding phase fails (any
`n` below the total number of catalog rows), `SaveUser` surfaces the error
to the caller, returns the already-committed user id alongside it, leaves
the committed user row in place, aborts all later inserts and does not
roll back the earlier ones: exactly `n` junction rows were added across
the three junction tables. -/
theorem saveUser_seed_failure_partial (db : DB) (email : String)
    (passHash : List Nat) (randomKey : Fin 3) (n : Nat)
    (hfresh : emailExists db email = false)
    (hn : n < db.author.length + db.article.length + db.poet.length) :
    (saveUser db email passHash randomKey
        ⟨false, false, false, false, some n⟩).2.2 = some .internal ∧
    (saveUser db email passHash randomKey
        ⟨false, false, false, false, some n⟩).2.1 = nextUserId db ∧
    (saveUser db email passHash randomKey
        ⟨false, false, false, false, some n⟩).1.users =
      db.users ++ [⟨nextUserId db, email, passHash, authorsName randomKey,
        authorsImage randomKey⟩] ∧
    (saveUser db email passHash randomKey
          ⟨false, false, false, false, some n⟩).1.authors.length +
        (saveUser db email passHash randomKey
          ⟨false, false, false, false, some n⟩).1.articles.length +
        (saveUser db email passHash randomKey
          ⟨false, false, false, false, some n⟩).1.poets.length =
      db.authors.length + db.articles.length + db.poets.length + n := by
  rcases Nat.lt_or_ge n db.author.length with h1 | h1
  · have ea := seedLoop_abort (nextUserId db) (db.author.map (fun a => a.id)) n 0
      (by simpa using h1)
    simp only [Nat.zero_add] at ea
    simp [saveUser, hfresh, ea, List.length_take]
    omega
  · rcases Nat.lt_or_ge n (db.author.length + db.article.length) with h2 | h2
    · have ea := seedLoop_after (nextUserId db) (db.author.map (fun a => a.id)) n 0
        (by simpa using h1)
      simp only [Nat.zero_add, List.length_map] at ea
      have eb := seedLoop_abort (nextUserId db) (db.article.map (fun a => a.id))
        (n - db.author.length) db.author.length
        (by simp only [List.length_map]; omega)
      have heq : db.author.length + (n - db.author.length) = n := by omega
      rw [heq] at eb
      simp [saveUser, hfresh, ea, eb, List.length_take, List.length_map]
      omega
    · have ea := seedLoop_after (nextUserId db) (db.author.map (fun a => a.id)) n 0
        (by simpa using h1)
      simp only [Nat.zero_add, List.length_map] at ea
      have eb := seedLoop_after (nextUserId db) (db.article.map (fun a => a.id)) n
        db.author.length (by simp only [List.length_map]; omega)
      simp only [List.length_map] at eb
      have ec := seedLoop_abort (nextUserId db) (db.poet.map (fun p => p.id))
        (n - (db.author.length + db.article.length))
        (db.author.length + db.article.length)
        (by simp only [List.length_map]; omega)
      have heq : db.author.length + db.article.length +
          (n - (db.author.length + db.article.length)) = n := by omega
      rw [heq] at ec
      simp [saveUser, hfresh, ea, eb, ec, List.length_take, List.length_map]
      omega

/-- Witness for C4: catalogs of sizes 1, 1, 1; the second association
insert (the article insert, index 1) fails; the user row is committed, the
author row was inserted, the article and poet rows were not, and the error
is surfaced together with the user id 1. -/
theorem saveUser_seed_failure_partial_witness :
    emailExists ⟨[], [⟨10, "a", "i"⟩], [⟨20, "c", "k", "d"⟩], [⟨30, "p", "l"⟩],
        [], [], []⟩ "a@x.com" = false ∧
    (1 : Nat) < 1 + 1 + 1 ∧
    ((saveUser ⟨[], [⟨10, "a", "i"⟩], [⟨20, "c", "k", "d"⟩], [⟨30, "p", "l"⟩],
          [], [], []⟩ "a@x.com" [2] 0
        ⟨false, false, false, false, some 1⟩).2.2 = some .internal ∧
      (saveUser ⟨[], [⟨10, "a", "i"⟩], [⟨20, "c", "k", "d"⟩], [⟨30, "p", "l"⟩],
          [], [], []⟩ "a@x.com" [2] 0
        ⟨false, false, false, false, some 1⟩).2.1 =
        nextUserId ⟨[], [⟨10, "a", "i"⟩], [⟨20, "c", "k", "d"⟩], [⟨30, "p", "l"⟩],
          [], [], []⟩ ∧
      (saveUser ⟨[], [⟨10, "a", "i"⟩], [⟨20, "c", "k", "d"⟩], [⟨30, "p", "l"⟩],
          [], [], []⟩ "a@x.com" [2] 0
        ⟨false, false, false, false, some 1⟩).1.users =
        (⟨[], [⟨10, "a", "i"⟩], [⟨20, "c", "k", "d"⟩], [⟨30, "p", "l"⟩],
          [], [], []⟩ : DB).users ++
          [⟨nextUserId ⟨[], [⟨10, "a", "i"⟩], [⟨20, "c", "k", "d"⟩],
              [⟨30, "p", "l"⟩], [], [], []⟩, "a@x.com", [2], authorsName 0,
            authorsImage 0⟩] ∧
      (saveUser ⟨[], [⟨10, "a", "i"⟩], [⟨20, "c", "k", "d"⟩], [⟨30, "p", "l"⟩],
            [], [], []⟩ "a@x.com" [2] 0
          ⟨false, false, false, false, some 1⟩).1.authors.length +
        (saveUser ⟨[], [⟨10, "a", "i"⟩], [⟨20, "c", "k", "d"⟩], [⟨30, "p", "l"⟩],
            [], [], []⟩ "a@x.com" [2] 0
          ⟨false, false, false, false, some 1⟩).1.articles.length +
        (saveUser ⟨[], [⟨10, "a", "i"⟩], [⟨20, "c", "k", "d"⟩], [⟨30, "p", "l"⟩],
            [], [], []⟩ "a@x.com" [2] 0
          ⟨false, false, false, false, some 1⟩).1.poets.length =
        (⟨[], [⟨10, "a", "i"⟩], [⟨20, "c", "k", "d"⟩], [⟨30, "p", "l"⟩],
            [], [], []⟩ : DB).authors.length +
          (⟨[], [⟨10, "a", "i"⟩], [⟨20, "c", "k", "d"⟩], [⟨30, "p", "l"⟩],
            [], [], []⟩ : DB).articles.length +
          (⟨[], [⟨10, "a", "i"⟩], [⟨20, "c", "k", "d"⟩], [⟨30, "p", "l"⟩],
            [], [], []⟩ : DB).poets.length + 1) :=
  ⟨by decide, by decide,
    saveUser_seed_failure_partial
      ⟨[], [⟨10, "a", "i"⟩], [⟨20, "c", "k", "d"⟩], [⟨30, "p", "l"⟩], [], [], []⟩
      "a@x.com" [2] 0 1 (by decide) (by decide)⟩

end ITNav
